import Mathlib

/-!
Shallow embedding of the two pinocchio example programs (counter and
escrow): data model, instruction decoding and handlers, translated from
src/counter/src/lib.rs and src/escrow/src/lib.rs.

Machine integers (u64) are modelled as Nat together with the explicit
saturating operations the source uses; 2 ^ 64 - 1 is the u64 bound.
Public keys (32-byte identities) are modelled as Nat.  Three external
collaborators are threaded in as explicit parameters:
  cpa — create_program_address, the one-way program-derived-address
        function (returns none exactly when the runtime call fails,
        which the source turns into InvalidSeeds through the ? operator);
  mb  — the rent oracle minimum_balance;
  oob — the bytes an unchecked pointer cast reads past the end of a
        too-short instruction payload (the source casts the payload
        pointer to a fixed-size struct with no length check).
-/

/-- Decidable equality on Except results, used to evaluate the embedded
handlers on concrete inputs. -/
instance {e a : Type} [DecidableEq e] [DecidableEq a] : DecidableEq (Except e a) := fun x y =>
  match x, y with
  | .ok u, .ok v =>
    if h : u = v then .isTrue (by rw [h]) else .isFalse (by simp [h])
  | .error u, .error v =>
    if h : u = v then .isTrue (by rw [h]) else .isFalse (by simp [h])
  | .ok _, .error _ => .isFalse (by simp)
  | .error _, .ok _ => .isFalse (by simp)

/-- Public keys (32-byte identities) modelled as natural numbers. -/
abbrev Pubkey := Nat

/-- Largest value of a 64-bit unsigned integer. -/
def U64MAX : Nat := 2 ^ 64 - 1

/-- u64 saturating addition. -/
def satAdd (a b : Nat) : Nat := min (a + b) U64MAX

/-- Errors the programs return: the ProgramError variants that occur in
the source, plus Custom for errors propagated back from the external
token program during a CPI. -/
inductive ProgramError where
  | NotEnoughAccountKeys
  | MissingRequiredSignature
  | InvalidInstructionData
  | InvalidSeeds
  | IllegalOwner
  | InvalidAccountData
  | Custom : Nat → ProgramError
deriving DecidableEq, Repr

/-- One seed item handed to create_program_address: a constant domain
tag, a 32-byte public key, or the single bump byte. -/
inductive Seed where
  | tag : String → Seed
  | pk : Pubkey → Seed
  | byte : Nat → Seed
deriving DecidableEq, Repr

/-- Byte read from the instruction payload at index i.  The source reads
the payload through an unchecked pointer cast with no length check, so a
read past the end of the payload yields whatever adjacent memory holds;
the oracle oob supplies those bytes. -/
def readByte (l : List Nat) (oob : Nat → Nat) (i : Nat) : Nat :=
  l.getD i (oob i)

/-- Little-endian u64 read at offset off (layout of a repr C u64 field
on the little-endian deployment target). -/
def readU64 (l : List Nat) (oob : Nat → Nat) (off : Nat) : Nat :=
  readByte l oob off +
    256 * (readByte l oob (off + 1) +
      256 * (readByte l oob (off + 2) +
        256 * (readByte l oob (off + 3) +
          256 * (readByte l oob (off + 4) +
            256 * (readByte l oob (off + 5) +
              256 * (readByte l oob (off + 6) +
                256 * readByte l oob (off + 7)))))))

/-- Program id declared by declare_id! in src/counter/src/lib.rs,
modelled as an arbitrary distinguished key. -/
def counterProgId : Pubkey := 101

/-- The constant domain seed of the counter program. -/
def COUNTER_SEED : String := "counter"

/-- On-chain representation of a counter (src/counter/src/lib.rs). -/
structure Counter where
  owner : Pubkey
  count : Nat
deriving DecidableEq, Repr

/-- size_of for Counter: 32 + 8 bytes. -/
def Counter.LEN : Nat := 40

/-- Counter program instruction discriminators. -/
inductive CounterInstruction where
  | Create
  | Increment
  | Decrement
  | Delete
deriving DecidableEq, Repr

/-- TryFrom of a u8 discriminator for CounterInstruction. -/
def CounterInstruction.tryFrom (value : Nat) : Except ProgramError CounterInstruction :=
  if value = 0 then .ok .Create
  else if value = 1 then .ok .Increment
  else if value = 2 then .ok .Decrement
  else if value = 3 then .ok .Delete
  else .error .InvalidInstructionData

/-- One AccountInfo as the counter program sees it: address, signer
flag, owning program, native balance, and the typed view of its data
bytes (the source reads those bytes through an unchecked cast to
Counter, so the view is always available). -/
structure CtrAccount where
  key : Pubkey
  signer : Bool
  ownerProg : Pubkey
  lamports : Nat
  data : Counter
deriving DecidableEq, Repr

/-- process_create: the CreateAccount CPI debits the payer by the
rent-minimum balance for Counter.LEN, credits the new account, assigns
it to this program with freshly zero-initialized data; the handler then
writes the owner key and a zero count. -/
def process_create (mb : Nat → Nat) (owner counter : CtrAccount) :
    Except ProgramError (CtrAccount × CtrAccount) :=
  let lam := mb Counter.LEN
  let owner' := { owner with lamports := owner.lamports - lam }
  let counter' : CtrAccount :=
    { counter with
      ownerProg := counterProgId
      lamports := counter.lamports + lam
      data := { owner := 0, count := 0 } }
  .ok (owner', { counter' with data := { owner := owner.key, count := 0 } })

/-- process_increment: program-ownership check, stored-owner check,
then a u64 saturating_add of 1 on the count. -/
def process_increment (owner counter : CtrAccount) :
    Except ProgramError (CtrAccount × CtrAccount) :=
  if counter.ownerProg ≠ counterProgId then .error .IllegalOwner
  else if counter.data.owner ≠ owner.key then .error .IllegalOwner
  else
    .ok (owner,
      { counter with data := { counter.data with count := satAdd counter.data.count 1 } })

/-- process_decrement: program-ownership check, stored-owner check,
then a u64 saturating_sub of 1 on the count (Nat subtraction already
saturates at 0). -/
def process_decrement (owner counter : CtrAccount) :
    Except ProgramError (CtrAccount × CtrAccount) :=
  if counter.ownerProg ≠ counterProgId then .error .IllegalOwner
  else if counter.data.owner ≠ owner.key then .error .IllegalOwner
  else
    .ok (owner,
      { counter with data := { counter.data with count := counter.data.count - 1 } })

/-- process_delete: program-ownership check, stored-owner check, then
move the counter account's native balance to the owner with a u64
saturating_add and zero the counter's balance; the data bytes are not
touched. -/
def process_delete (owner counter : CtrAccount) :
    Except ProgramError (CtrAccount × CtrAccount) :=
  if counter.ownerProg ≠ counterProgId then .error .IllegalOwner
  else if counter.data.owner ≠ owner.key then .error .IllegalOwner
  else
    .ok ({ owner with lamports := satAdd owner.lamports counter.lamports },
      { counter with lamports := 0 })

/-- Entrypoint of the counter program (process_instruction in
src/counter/src/lib.rs): fetch owner, check its signature, fetch the
counter and the system program accounts, decode the discriminator and
the fixed-size payload (bump byte, read unchecked), recompute the
program-derived address and compare it with the counter's key, then
dispatch.  A result of ok carries the updated owner and counter
accounts; an error aborts the instruction with no effect. -/
def counter_process_instruction (cpa : List Seed → Pubkey → Option Pubkey)
    (mb : Nat → Nat) (accounts : List CtrAccount)
    (instruction_data : List Nat) (oob : Nat → Nat) :
    Except ProgramError (CtrAccount × CtrAccount) :=
  match accounts with
  | [] => .error .NotEnoughAccountKeys
  | owner :: rest =>
    if owner.signer = false then .error .MissingRequiredSignature
    else
      match rest with
      | counter :: _sys :: _ =>
        match instruction_data with
        | [] => .error .InvalidInstructionData
        | d :: payload =>
          match CounterInstruction.tryFrom d with
          | .error e => .error e
          | .ok instr =>
            let bump := readByte payload oob 0
            match cpa [.tag COUNTER_SEED, .pk owner.key, .byte bump] counterProgId with
            | none => .error .InvalidSeeds
            | some counter_pda =>
              if counter.key ≠ counter_pda then .error .InvalidSeeds
              else
                match instr with
                | .Create => process_create mb owner counter
                | .Increment => process_increment owner counter
                | .Decrement => process_decrement owner counter
                | .Delete => process_delete owner counter
      | _ => .error .NotEnoughAccountKeys

/-- Program id declared by declare_id! in src/escrow/src/lib.rs,
modelled as an arbitrary distinguished key. -/
def escrowProgId : Pubkey := 202

/-- The constant domain seed of the escrow program. -/
def ESCROW_SEED : String := "escrow"

/-- On-chain representation of an escrow record (src/escrow/src/lib.rs). -/
structure Escrow where
  sender : Pubkey
  receiver : Pubkey
  amount : Nat
deriving DecidableEq, Repr

/-- size_of for Escrow: 32 + 32 + 8 bytes. -/
def Escrow.LEN : Nat := 72

/-- The fields of an external token-custody account that the escrow
program reads: the token owner and the token balance. -/
structure TokenAccount where
  owner : Pubkey
  amount : Nat
deriving DecidableEq, Repr

/-- One AccountInfo as the escrow program sees it: address, signer
flag, owning program, native balance, plus the two typed views of its
data bytes the source uses — the token-account view (read through the
external token library, valid only when tokValid holds) and the escrow
record view (read through an unchecked cast, so always available). -/
structure EscAccount where
  key : Pubkey
  signer : Bool
  ownerProg : Pubkey
  lamports : Nat
  tokValid : Bool
  tok : TokenAccount
  esc : Escrow
deriving DecidableEq, Repr

/-- TokenAccount.from_account_info of the external token library:
yields the typed token view, or the library's validation error when the
account is not a well-formed token account. -/
def from_account_info (a : EscAccount) : Except ProgramError TokenAccount :=
  if a.tokValid then .ok a.tok else .error .InvalidAccountData

/-- Effect of the external token program's Transfer CPI: move amount
from one token account to the other, failing (with the token program's
own error, modelled as Custom 1) when the balance is insufficient. -/
def tokenTransfer (source dest : EscAccount) (amount : Nat) :
    Except ProgramError (EscAccount × EscAccount) :=
  if source.tok.amount < amount then .error (.Custom 1)
  else
    .ok ({ source with tok := { source.tok with amount := source.tok.amount - amount } },
      { dest with tok := { dest.tok with amount := dest.tok.amount + amount } })

/-- process_initialize (src/escrow/src/lib.rs): exactly seven accounts;
check the sender and escrow token accounts' recorded owners; read the
amount and bump from the payload (unchecked fixed-size cast); recompute
and compare the escrow derived address; CreateAccount CPI for the
escrow record (payer debited, fresh zero-initialized record assigned to
the program); write sender and receiver into the record (the amount
field is never written and stays at its zero-initialized value); then
the token Transfer CPI moves the payload amount from the sender's token
account into the escrow's token account.  A result of ok carries the
seven updated accounts in order. -/
def process_initialize (cpa : List Seed → Pubkey → Option Pubkey)
    (mb : Nat → Nat) (accounts : List EscAccount)
    (instruction_data : List Nat) (oob : Nat → Nat) :
    Except ProgramError (List EscAccount) :=
  match accounts with
  | [sender, sender_ata, receiver, escrow, escrow_ata, sys, tokp] =>
    match from_account_info sender_ata with
    | .error e => .error e
    | .ok t1 =>
      if t1.owner ≠ sender.key then .error .IllegalOwner
      else
        match from_account_info escrow_ata with
        | .error e => .error e
        | .ok t2 =>
          if t2.owner ≠ escrow.key then .error .IllegalOwner
          else
            let amount := readU64 instruction_data oob 0
            let bump := readByte instruction_data oob 8
            match cpa [.tag ESCROW_SEED, .pk sender.key, .pk receiver.key, .byte bump]
                escrowProgId with
            | none => .error .InvalidSeeds
            | some escrow_pda =>
              if escrow.key ≠ escrow_pda then .error .InvalidSeeds
              else
                let lam := mb Escrow.LEN
                let sender' := { sender with lamports := sender.lamports - lam }
                let escrow' : EscAccount :=
                  { escrow with
                    ownerProg := escrowProgId
                    lamports := escrow.lamports + lam
                    esc := { sender := 0, receiver := 0, amount := 0 } }
                let escrow'' :=
                  { escrow' with
                    esc := { escrow'.esc with sender := sender.key, receiver := receiver.key } }
                match tokenTransfer sender_ata escrow_ata amount with
                | .error e => .error e
                | .ok (sender_ata', escrow_ata') =>
                  .ok [sender', sender_ata', receiver, escrow'', escrow_ata', sys, tokp]
  | _ => .error .NotEnoughAccountKeys

/-- process_exchange (src/escrow/src/lib.rs): exactly seven accounts;
check the receiver and escrow token accounts' recorded owners; read the
bump from the payload (unchecked cast); recompute and compare the
escrow derived address; read the escrow record and check its stored
receiver; then the token Transfer CPI moves the record's stored amount
from the escrow's token account to the receiver's token account. -/
def process_exchange (cpa : List Seed → Pubkey → Option Pubkey)
    (accounts : List EscAccount) (instruction_data : List Nat) (oob : Nat → Nat) :
    Except ProgramError (List EscAccount) :=
  match accounts with
  | [sender, receiver, receiver_ata, escrow, escrow_ata, sys, tokp] =>
    match from_account_info receiver_ata with
    | .error e => .error e
    | .ok t1 =>
      if t1.owner ≠ receiver.key then .error .IllegalOwner
      else
        match from_account_info escrow_ata with
        | .error e => .error e
        | .ok t2 =>
          if t2.owner ≠ escrow.key then .error .IllegalOwner
          else
            let bump := readByte instruction_data oob 0
            match cpa [.tag ESCROW_SEED, .pk sender.key, .pk receiver.key, .byte bump]
                escrowProgId with
            | none => .error .InvalidSeeds
            | some escrow_pda =>
              if escrow.key ≠ escrow_pda then .error .InvalidSeeds
              else if escrow.esc.receiver ≠ receiver.key then .error .IllegalOwner
              else
                match tokenTransfer escrow_ata receiver_ata escrow.esc.amount with
                | .error e => .error e
                | .ok (escrow_ata', receiver_ata') =>
                  .ok [sender, receiver, receiver_ata', escrow, escrow_ata', sys, tokp]
  | _ => .error .NotEnoughAccountKeys

/-- process_cancel (src/escrow/src/lib.rs): exactly seven accounts;
check the sender and escrow token accounts' recorded owners; read the
bump from the payload (unchecked cast); recompute and compare the
escrow derived address; read the escrow record and check its stored
sender; then the token Transfer CPI moves the record's stored amount
from the escrow's token account back to the sender's token account. -/
def process_cancel (cpa : List Seed → Pubkey → Option Pubkey)
    (accounts : List EscAccount) (instruction_data : List Nat) (oob : Nat → Nat) :
    Except ProgramError (List EscAccount) :=
  match accounts with
  | [sender, sender_ata, receiver, escrow, escrow_ata, sys, tokp] =>
    match from_account_info sender_ata with
    | .error e => .error e
    | .ok t1 =>
      if t1.owner ≠ sender.key then .error .IllegalOwner
      else
        match from_account_info escrow_ata with
        | .error e => .error e
        | .ok t2 =>
          if t2.owner ≠ escrow.key then .error .IllegalOwner
          else
            let bump := readByte instruction_data oob 0
            match cpa [.tag ESCROW_SEED, .pk sender.key, .pk receiver.key, .byte bump]
                escrowProgId with
            | none => .error .InvalidSeeds
            | some escrow_pda =>
              if escrow.key ≠ escrow_pda then .error .InvalidSeeds
              else if escrow.esc.sender ≠ sender.key then .error .IllegalOwner
              else
                match tokenTransfer escrow_ata sender_ata escrow.esc.amount with
                | .error e => .error e
                | .ok (escrow_ata', sender_ata') =>
                  .ok [sender, sender_ata', receiver, escrow, escrow_ata', sys, tokp]
  | _ => .error .NotEnoughAccountKeys

/-- Entrypoint of the escrow program (process_instruction in
src/escrow/src/lib.rs): split the leading discriminator byte off the
instruction data and dispatch to the matching handler. -/
def escrow_process_instruction (cpa : List Seed → Pubkey → Option Pubkey)
    (mb : Nat → Nat) (accounts : List EscAccount)
    (instruction_data : List Nat) (oob : Nat → Nat) :
    Except ProgramError (List EscAccount) :=
  match instruction_data with
  | [] => .error .InvalidInstructionData
  | d :: payload =>
    if d = 0 then process_initialize cpa mb accounts payload oob
    else if d = 1 then process_exchange cpa accounts payload oob
    else if d = 2 then process_cancel cpa accounts payload oob
    else .error .InvalidInstructionData

/-- Concrete derived-address oracle used in witnesses: every derivation
succeeds and returns the key 42. -/
def cpa0 : List Seed → Pubkey → Option Pubkey := fun _ _ => some 42

/-- Concrete rent oracle used in witnesses. -/
def mb0 : Nat → Nat := fun _ => 7

/-- Concrete out-of-bounds-memory oracle used in witnesses. -/
def oob0 : Nat → Nat := fun _ => 0

/-! ### Claim C1 — the escrow scenario: deposit 100, then exchange -/

/-- C1 scenario: the sender, holding 100 tokens in its token account. -/
def c1_sender : EscAccount := ⟨10, true, 0, 1000, false, ⟨0, 0⟩, ⟨0, 0, 0⟩⟩

/-- C1 scenario: the sender's token account with 100 tokens. -/
def c1_sender_ata : EscAccount := ⟨11, false, 6, 2, true, ⟨10, 100⟩, ⟨0, 0, 0⟩⟩

/-- C1 scenario: the receiver. -/
def c1_receiver : EscAccount := ⟨20, false, 0, 500, false, ⟨0, 0⟩, ⟨0, 0, 0⟩⟩

/-- C1 scenario: the receiver's token account, initially empty. -/
def c1_receiver_ata : EscAccount := ⟨21, false, 6, 2, true, ⟨20, 0⟩, ⟨0, 0, 0⟩⟩

/-- C1 scenario: the escrow record account before Initialize (at the
derived address 42 that cpa0 produces, not yet allocated). -/
def c1_escrow : EscAccount := ⟨42, true, 0, 0, false, ⟨0, 0⟩, ⟨0, 0, 0⟩⟩

/-- C1 scenario: the escrow's token account, initially empty. -/
def c1_escrow_ata : EscAccount := ⟨31, false, 6, 2, true, ⟨42, 0⟩, ⟨0, 0, 0⟩⟩

/-- C1 scenario: the system program account. -/
def c1_sys : EscAccount := ⟨5, false, 0, 1, false, ⟨0, 0⟩, ⟨0, 0, 0⟩⟩

/-- C1 scenario: the token program account. -/
def c1_tokp : EscAccount := ⟨6, false, 0, 1, false, ⟨0, 0⟩, ⟨0, 0, 0⟩⟩

/-- C1 scenario: Initialize instruction data — discriminator 0, then
amount = 100 as little-endian u64, bump = 7, seven padding bytes. -/
def c1_init_data : List Nat :=
  [0, 100, 0, 0, 0, 0, 0, 0, 0, 7, 0, 0, 0, 0, 0, 0, 0]

/-- C1 scenario: the sender after Initialize (paid the rent minimum). -/
def c1_sender1 : EscAccount := ⟨10, true, 0, 993, false, ⟨0, 0⟩, ⟨0, 0, 0⟩⟩

/-- C1 scenario: the sender's token account after Initialize (drained
of the 100 deposited tokens). -/
def c1_sender_ata1 : EscAccount := ⟨11, false, 6, 2, true, ⟨10, 0⟩, ⟨0, 0, 0⟩⟩

/-- C1 scenario: the escrow record after Initialize — sender and
receiver are recorded, but the amount field holds 0, not the 100 that
was deposited. -/
def c1_escrow1 : EscAccount := ⟨42, true, escrowProgId, 7, false, ⟨0, 0⟩, ⟨10, 20, 0⟩⟩

/-- C1 scenario: the escrow's token account after Initialize, holding
the 100 deposited tokens. -/
def c1_escrow_ata1 : EscAccount := ⟨31, false, 6, 2, true, ⟨42, 100⟩, ⟨0, 0, 0⟩⟩

/-- The external token library's account validation only ever fails
with its validation error. -/
lemma from_account_info_error {a : EscAccount} {e : ProgramError}
    (h : from_account_info a = .error e) : e = .InvalidAccountData := by
  unfold from_account_info at h
  split at h <;> simp_all

/-- The external token transfer only ever fails with the token
program's own error. -/
lemma tokenTransfer_error {s d : EscAccount} {n : Nat} {e : ProgramError}
    (h : tokenTransfer s d n = .error e) : e = .Custom 1 := by
  unfold tokenTransfer at h
  split at h <;> simp_all

set_option maxHeartbeats 1600000 in
/-- Every error process_initialize can return. -/
lemma process_initialize_error_cases
    (cpa : List Seed → Pubkey → Option Pubkey) (mb : Nat → Nat)
    (accounts : List EscAccount) (instruction_data : List Nat) (oob : Nat → Nat)
    (e : ProgramError)
    (h : process_initialize cpa mb accounts instruction_data oob = .error e) :
    e = .NotEnoughAccountKeys ∨ e = .InvalidAccountData ∨ e = .IllegalOwner ∨
      e = .InvalidSeeds ∨ e = .Custom 1 := by
  unfold process_initialize at h
  repeat' (first | split at h | dsimp only at h)
  all_goals
    first
      | (injection h with hh
         subst hh
         first
           | simp
           | (have h2 := from_account_info_error (by assumption)
              simp [h2])
           | (have h2 := tokenTransfer_error (by assumption)
              simp [h2]))
      | exact absurd h (by simp)

set_option maxHeartbeats 1600000 in
/-- Every error process_exchange can return. -/
lemma process_exchange_error_cases
    (cpa : List Seed → Pubkey → Option Pubkey)
    (accounts : List EscAccount) (instruction_data : List Nat) (oob : Nat → Nat)
    (e : ProgramError)
    (h : process_exchange cpa accounts instruction_data oob = .error e) :
    e = .NotEnoughAccountKeys ∨ e = .InvalidAccountData ∨ e = .IllegalOwner ∨
      e = .InvalidSeeds ∨ e = .Custom 1 := by
  unfold process_exchange at h
  repeat' (first | split at h | dsimp only at h)
  all_goals
    first
      | (injection h with hh
         subst hh
         first
           | simp
           | (have h2 := from_account_info_error (by assumption)
              simp [h2])
           | (have h2 := tokenTransfer_error (by assumption)
              simp [h2]))
      | exact absurd h (by simp)

set_option maxHeartbeats 1600000 in
/-- Every error process_cancel can return. -/
lemma process_cancel_error_cases
    (cpa : List Seed → Pubkey → Option Pubkey)
    (accounts : List EscAccount) (instruction_data : List Nat) (oob : Nat → Nat)
    (e : ProgramError)
    (h : process_cancel cpa accounts instruction_data oob = .error e) :
    e = .NotEnoughAccountKeys ∨ e = .InvalidAccountData ∨ e = .IllegalOwner ∨
      e = .InvalidSeeds ∨ e = .Custom 1 := by
  unfold process_cancel at h
  repeat' (first | split at h | dsimp only at h)
  all_goals
    first
      | (injection h with hh
         subst hh
         first
           | simp
           | (have h2 := from_account_info_error (by assumption)
              simp [h2])
           | (have h2 := tokenTransfer_error (by assumption)
              simp [h2]))
      | exact absurd h (by simp)

/-- Claim C1: the quantity transferred by a successful Exchange or
Cancel equals the amount deposited at Initialize time, which the claim
identifies with the amount field recorded in the escrow record at
creation.  The code contradicts this: process_initialize transfers the
payload amount into escrow custody but never writes the record's amount
field, which keeps the fresh account's zero-initialized value; a
subsequent Exchange by the recorded receiver therefore transfers the
stored 0, not the 100 that was deposited — here Exchange succeeds and
leaves every token balance unchanged, with the deposit stuck in escrow
custody. -/
theorem C1_amount_never_recorded :
    escrow_process_instruction cpa0 mb0
        [c1_sender, c1_sender_ata, c1_receiver, c1_escrow, c1_escrow_ata, c1_sys, c1_tokp]
        c1_init_data oob0 =
      .ok [c1_sender1, c1_sender_ata1, c1_receiver, c1_escrow1, c1_escrow_ata1, c1_sys,
        c1_tokp] ∧
    c1_escrow_ata1.tok.amount = 100 ∧
    c1_escrow1.esc.amount = 0 ∧
    escrow_process_instruction cpa0 mb0
        [c1_sender1, c1_receiver, c1_receiver_ata, c1_escrow1, c1_escrow_ata1, c1_sys, c1_tokp]
        [1, 7] oob0 =
      .ok [c1_sender1, c1_receiver, c1_receiver_ata, c1_escrow1, c1_escrow_ata1, c1_sys,
        c1_tokp] ∧
    c1_receiver_ata.tok.amount = 0 := by
  refine ⟨by decide, by decide, by decide, by decide, by decide⟩

/-! ### Claim C2 — payer signature checks -/

/-- Claim C2 (amended): for the counter program a non-signing owner
(the payer of Create, and the authority of every other instruction, as
the check precedes dispatch) makes the whole instruction fail with
MissingRequiredSignature before anything else happens; the escrow
program's Initialize, however, performs no signer check at all on the
sender — no escrow instruction ever returns MissingRequiredSignature,
signature enforcement being left to the external account-creation and
token-custody collaborators. -/
theorem C2_payer_signer_check :
    (∀ (cpa : List Seed → Pubkey → Option Pubkey) (mb : Nat → Nat)
        (owner : CtrAccount) (rest : List CtrAccount)
        (instruction_data : List Nat) (oob : Nat → Nat),
        owner.signer = false →
        counter_process_instruction cpa mb (owner :: rest) instruction_data oob =
          .error .MissingRequiredSignature) ∧
    (∀ (cpa : List Seed → Pubkey → Option Pubkey) (mb : Nat → Nat)
        (accounts : List EscAccount) (instruction_data : List Nat) (oob : Nat → Nat),
        escrow_process_instruction cpa mb accounts instruction_data oob ≠
          .error .MissingRequiredSignature) := by
  constructor
  · intro cpa mb owner rest instruction_data oob h
    simp [counter_process_instruction, h]
  · intro cpa mb accounts instruction_data oob h
    unfold escrow_process_instruction at h
    repeat' split at h
    all_goals
      first
        | simp at h
        | (rcases process_initialize_error_cases _ _ _ _ _ _ h with h1 | h1 | h1 | h1 | h1 <;>
            simp_all)
        | (rcases process_exchange_error_cases _ _ _ _ _ h with h1 | h1 | h1 | h1 | h1 <;>
            simp_all)
        | (rcases process_cancel_error_cases _ _ _ _ _ h with h1 | h1 | h1 | h1 | h1 <;>
            simp_all)

/-- Witness for C2: a concrete non-signing counter owner is rejected
with MissingRequiredSignature, and a concrete escrow call never
produces that error. -/
theorem C2_payer_signer_check_witness :
    counter_process_instruction cpa0 mb0 [⟨3, false, 0, 5, ⟨0, 0⟩⟩] [0, 9] oob0 =
      .error .MissingRequiredSignature ∧
    escrow_process_instruction cpa0 mb0 [] [9] oob0 ≠
      .error .MissingRequiredSignature :=
  ⟨C2_payer_signer_check.1 cpa0 mb0 ⟨3, false, 0, 5, ⟨0, 0⟩⟩ [] [0, 9] oob0 rfl,
    C2_payer_signer_check.2 cpa0 mb0 [] [9] oob0⟩

/-- C2 counterexample scenario: a sender that did not sign. -/
def c2_sender : EscAccount := ⟨110, false, 0, 300, false, ⟨0, 0⟩, ⟨0, 0, 0⟩⟩

/-- C2 counterexample scenario: the sender's token account. -/
def c2_sender_ata : EscAccount := ⟨111, false, 6, 2, true, ⟨110, 50⟩, ⟨0, 0, 0⟩⟩

/-- C2 counterexample scenario: the receiver. -/
def c2_receiver : EscAccount := ⟨120, false, 0, 400, false, ⟨0, 0⟩, ⟨0, 0, 0⟩⟩

/-- C2 counterexample scenario: the escrow record account (at the
derived address 42 that cpa0 produces). -/
def c2_escrow : EscAccount := ⟨42, false, 0, 0, false, ⟨0, 0⟩, ⟨0, 0, 0⟩⟩

/-- C2 counterexample scenario: the escrow's token account. -/
def c2_escrow_ata : EscAccount := ⟨131, false, 6, 2, true, ⟨42, 0⟩, ⟨0, 0, 0⟩⟩

/-- C2 counterexample scenario: the system program account. -/
def c2_sys : EscAccount := ⟨105, false, 0, 1, false, ⟨0, 0⟩, ⟨0, 0, 0⟩⟩

/-- C2 counterexample scenario: the token program account. -/
def c2_tokp : EscAccount := ⟨106, false, 0, 1, false, ⟨0, 0⟩, ⟨0, 0, 0⟩⟩

/-- Counterexample to C2 as stated: an escrow Initialize whose sender
did not sign the transaction does not fail with
MissingRequiredSignature — it runs to completion, creating the record
and moving the 50-token deposit. -/
theorem C2_no_sender_signer_check_cex :
    c2_sender.signer = false ∧
    escrow_process_instruction cpa0 mb0
        [c2_sender, c2_sender_ata, c2_receiver, c2_escrow, c2_escrow_ata, c2_sys, c2_tokp]
        [0, 50, 0, 0, 0, 0, 0, 0, 0, 9, 0, 0, 0, 0, 0, 0, 0] oob0 =
      .ok [⟨110, false, 0, 293, false, ⟨0, 0⟩, ⟨0, 0, 0⟩⟩,
        ⟨111, false, 6, 2, true, ⟨110, 0⟩, ⟨0, 0, 0⟩⟩,
        c2_receiver,
        ⟨42, false, escrowProgId, 7, false, ⟨0, 0⟩, ⟨110, 120, 0⟩⟩,
        ⟨131, false, 6, 2, true, ⟨42, 50⟩, ⟨0, 0, 0⟩⟩,
        c2_sys, c2_tokp] :=
  ⟨rfl, by decide⟩

/-! ### Claim C3 — derived-address verification -/

/-- Claim C3: every handler of both programs fails with InvalidSeeds —
before any state mutation or transfer — whenever the supplied
counter/escrow account's key differs from the address derived from the
constant seed tag, the claimed identities and the caller-supplied bump
byte, provided the checks the source places before the derivation pass
(counter: the owner signed; escrow: the token-account ownership
checks).  The counter program performs the check once, before
dispatching to any of its four handlers; each escrow handler performs
it itself. -/
theorem C3_derived_address_checked :
    (∀ (cpa : List Seed → Pubkey → Option Pubkey) (mb : Nat → Nat)
        (owner counter sys : CtrAccount) (rest : List CtrAccount)
        (d : Nat) (payload : List Nat) (oob : Nat → Nat) (pda : Pubkey),
        owner.signer = true → d ≤ 3 →
        cpa [.tag COUNTER_SEED, .pk owner.key, .byte (readByte payload oob 0)]
            counterProgId = some pda →
        counter.key ≠ pda →
        counter_process_instruction cpa mb (owner :: counter :: sys :: rest)
          (d :: payload) oob = .error .InvalidSeeds) ∧
    (∀ (cpa : List Seed → Pubkey → Option Pubkey) (mb : Nat → Nat)
        (sender sender_ata receiver escrow escrow_ata sys tokp : EscAccount)
        (instruction_data : List Nat) (oob : Nat → Nat) (pda : Pubkey),
        sender_ata.tokValid = true → sender_ata.tok.owner = sender.key →
        escrow_ata.tokValid = true → escrow_ata.tok.owner = escrow.key →
        cpa [.tag ESCROW_SEED, .pk sender.key, .pk receiver.key,
            .byte (readByte instruction_data oob 8)] escrowProgId = some pda →
        escrow.key ≠ pda →
        process_initialize cpa mb
          [sender, sender_ata, receiver, escrow, escrow_ata, sys, tokp]
          instruction_data oob = .error .InvalidSeeds) ∧
    (∀ (cpa : List Seed → Pubkey → Option Pubkey)
        (sender receiver receiver_ata escrow escrow_ata sys tokp : EscAccount)
        (instruction_data : List Nat) (oob : Nat → Nat) (pda : Pubkey),
        receiver_ata.tokValid = true → receiver_ata.tok.owner = receiver.key →
        escrow_ata.tokValid = true → escrow_ata.tok.owner = escrow.key →
        cpa [.tag ESCROW_SEED, .pk sender.key, .pk receiver.key,
            .byte (readByte instruction_data oob 0)] escrowProgId = some pda →
        escrow.key ≠ pda →
        process_exchange cpa
          [sender, receiver, receiver_ata, escrow, escrow_ata, sys, tokp]
          instruction_data oob = .error .InvalidSeeds) ∧
    (∀ (cpa : List Seed → Pubkey → Option Pubkey)
        (sender sender_ata receiver escrow escrow_ata sys tokp : EscAccount)
        (instruction_data : List Nat) (oob : Nat → Nat) (pda : Pubkey),
        sender_ata.tokValid = true → sender_ata.tok.owner = sender.key →
        escrow_ata.tokValid = true → escrow_ata.tok.owner = escrow.key →
        cpa [.tag ESCROW_SEED, .pk sender.key, .pk receiver.key,
            .byte (readByte instruction_data oob 0)] escrowProgId = some pda →
        escrow.key ≠ pda →
        process_cancel cpa
          [sender, sender_ata, receiver, escrow, escrow_ata, sys, tokp]
          instruction_data oob = .error .InvalidSeeds) := by
  refine ⟨?_, ?_, ?_, ?_⟩
  · intro cpa mb owner counter sys rest d payload oob pda hs hd hcpa hk
    interval_cases d <;>
      simp [counter_process_instruction, CounterInstruction.tryFrom, hs, hcpa, hk]
  · intro cpa mb sender sender_ata receiver escrow escrow_ata sys tokp
      instruction_data oob pda h1 h2 h3 h4 hcpa hk
    simp [ process_initialize, from_account_info, h1, h2, h3, h4, hcpa, hk]
  · intro cpa sender receiver receiver_ata escrow escrow_ata sys tokp
      instruction_data oob pda h1 h2 h3 h4 hcpa hk
    simp [process_exchange, from_account_info, h1, h2, h3, h4, hcpa, hk]
  · intro cpa sender sender_ata receiver escrow escrow_ata sys tokp
      instruction_data oob pda h1 h2 h3 h4 hcpa hk
    simp [process_cancel, from_account_info, h1, h2, h3, h4, hcpa, hk]

/-- Witness for C3: with the concrete oracle cpa0 (derived address 42),
a counter/escrow record account supplied at key 43 is rejected with
InvalidSeeds by all four paths. -/
theorem C3_derived_address_checked_witness :
    counter_process_instruction cpa0 mb0
        [⟨3, true, 0, 5, ⟨0, 0⟩⟩, ⟨43, false, counterProgId, 9, ⟨3, 0⟩⟩, ⟨0, false, 0, 1, ⟨0, 0⟩⟩]
        [1, 9] oob0 = .error .InvalidSeeds ∧
    process_initialize cpa0 mb0
        [⟨10, true, 0, 50, false, ⟨0, 0⟩, ⟨0, 0, 0⟩⟩,
          ⟨11, false, 6, 2, true, ⟨10, 80⟩, ⟨0, 0, 0⟩⟩,
          ⟨20, false, 0, 50, false, ⟨0, 0⟩, ⟨0, 0, 0⟩⟩,
          ⟨43, false, 0, 0, false, ⟨0, 0⟩, ⟨0, 0, 0⟩⟩,
          ⟨31, false, 6, 2, true, ⟨43, 0⟩, ⟨0, 0, 0⟩⟩,
          ⟨5, false, 0, 1, false, ⟨0, 0⟩, ⟨0, 0, 0⟩⟩,
          ⟨6, false, 0, 1, false, ⟨0, 0⟩, ⟨0, 0, 0⟩⟩]
        [80, 0, 0, 0, 0, 0, 0, 0, 9, 0, 0, 0, 0, 0, 0, 0] oob0 = .error .InvalidSeeds ∧
    process_exchange cpa0
        [⟨10, false, 0, 50, false, ⟨0, 0⟩, ⟨0, 0, 0⟩⟩,
          ⟨20, true, 0, 50, false, ⟨0, 0⟩, ⟨0, 0, 0⟩⟩,
          ⟨21, false, 6, 2, true, ⟨20, 0⟩, ⟨0, 0, 0⟩⟩,
          ⟨43, false, escrowProgId, 7, false, ⟨0, 0⟩, ⟨10, 20, 0⟩⟩,
          ⟨31, false, 6, 2, true, ⟨43, 80⟩, ⟨0, 0, 0⟩⟩,
          ⟨5, false, 0, 1, false, ⟨0, 0⟩, ⟨0, 0, 0⟩⟩,
          ⟨6, false, 0, 1, false, ⟨0, 0⟩, ⟨0, 0, 0⟩⟩]
        [9] oob0 = .error .InvalidSeeds ∧
    process_cancel cpa0
        [⟨10, true, 0, 50, false, ⟨0, 0⟩, ⟨0, 0, 0⟩⟩,
          ⟨11, false, 6, 2, true, ⟨10, 0⟩, ⟨0, 0, 0⟩⟩,
          ⟨20, false, 0, 50, false, ⟨0, 0⟩, ⟨0, 0, 0⟩⟩,
          ⟨43, false, escrowProgId, 7, false, ⟨0, 0⟩, ⟨10, 20, 0⟩⟩,
          ⟨31, false, 6, 2, true, ⟨43, 80⟩, ⟨0, 0, 0⟩⟩,
          ⟨5, false, 0, 1, false, ⟨0, 0⟩, ⟨0, 0, 0⟩⟩,
          ⟨6, false, 0, 1, false, ⟨0, 0⟩, ⟨0, 0, 0⟩⟩]
        [9] oob0 = .error .InvalidSeeds :=
  ⟨C3_derived_address_checked.1 cpa0 mb0 ⟨3, true, 0, 5, ⟨0, 0⟩⟩
      ⟨43, false, counterProgId, 9, ⟨3, 0⟩⟩ ⟨0, false, 0, 1, ⟨0, 0⟩⟩ [] 1 [9] oob0 42
      rfl (by decide) rfl (by decide),
    C3_derived_address_checked.2.1 cpa0 mb0 ⟨10, true, 0, 50, false, ⟨0, 0⟩, ⟨0, 0, 0⟩⟩
      ⟨11, false, 6, 2, true, ⟨10, 80⟩, ⟨0, 0, 0⟩⟩ ⟨20, false, 0, 50, false, ⟨0, 0⟩, ⟨0, 0, 0⟩⟩
      ⟨43, false, 0, 0, false, ⟨0, 0⟩, ⟨0, 0, 0⟩⟩ ⟨31, false, 6, 2, true, ⟨43, 0⟩, ⟨0, 0, 0⟩⟩
      ⟨5, false, 0, 1, false, ⟨0, 0⟩, ⟨0, 0, 0⟩⟩ ⟨6, false, 0, 1, false, ⟨0, 0⟩, ⟨0, 0, 0⟩⟩
      [80, 0, 0, 0, 0, 0, 0, 0, 9, 0, 0, 0, 0, 0, 0, 0] oob0 42
      rfl rfl rfl rfl rfl (by decide),
    C3_derived_address_checked.2.2.1 cpa0 ⟨10, false, 0, 50, false, ⟨0, 0⟩, ⟨0, 0, 0⟩⟩
      ⟨20, true, 0, 50, false, ⟨0, 0⟩, ⟨0, 0, 0⟩⟩ ⟨21, false, 6, 2, true, ⟨20, 0⟩, ⟨0, 0, 0⟩⟩
      ⟨43, false, escrowProgId, 7, false, ⟨0, 0⟩, ⟨10, 20, 0⟩⟩
      ⟨31, false, 6, 2, true, ⟨43, 80⟩, ⟨0, 0, 0⟩⟩
      ⟨5, false, 0, 1, false, ⟨0, 0⟩, ⟨0, 0, 0⟩⟩ ⟨6, false, 0, 1, false, ⟨0, 0⟩, ⟨0, 0, 0⟩⟩
      [9] oob0 42 rfl rfl rfl rfl rfl (by decide),
    C3_derived_address_checked.2.2.2 cpa0 ⟨10, true, 0, 50, false, ⟨0, 0⟩, ⟨0, 0, 0⟩⟩
      ⟨11, false, 6, 2, true, ⟨10, 0⟩, ⟨0, 0, 0⟩⟩ ⟨20, false, 0, 50, false, ⟨0, 0⟩, ⟨0, 0, 0⟩⟩
      ⟨43, false, escrowProgId, 7, false, ⟨0, 0⟩, ⟨10, 20, 0⟩⟩
      ⟨31, false, 6, 2, true, ⟨43, 80⟩, ⟨0, 0, 0⟩⟩
      ⟨5, false, 0, 1, false, ⟨0, 0⟩, ⟨0, 0, 0⟩⟩ ⟨6, false, 0, 1, false, ⟨0, 0⟩, ⟨0, 0, 0⟩⟩
      [9] oob0 42 rfl rfl rfl rfl rfl (by decide)⟩

/-! ### Counter handler error characterizations -/

/-- process_create never returns an error. -/
lemma process_create_no_error {mb : Nat → Nat} {o c : CtrAccount} {e : ProgramError} :
    process_create mb o c ≠ .error e := by
  simp [process_create]

/-- process_increment only ever fails with IllegalOwner. -/
lemma process_increment_error_cases {o c : CtrAccount} {e : ProgramError}
    (h : process_increment o c = .error e) : e = .IllegalOwner := by
  unfold process_increment at h
  repeat' split at h
  all_goals simp_all

/-- process_decrement only ever fails with IllegalOwner. -/
lemma process_decrement_error_cases {o c : CtrAccount} {e : ProgramError}
    (h : process_decrement o c = .error e) : e = .IllegalOwner := by
  unfold process_decrement at h
  repeat' split at h
  all_goals simp_all

/-- process_delete only ever fails with IllegalOwner. -/
lemma process_delete_error_cases {o c : CtrAccount} {e : ProgramError}
    (h : process_delete o c = .error e) : e = .IllegalOwner := by
  unfold process_delete at h
  repeat' split at h
  all_goals simp_all

/-! ### Claim C4 — stored-owner authorization on the counter -/

/-- Counterexample to C4 as stated: with a counter record whose stored
owner (77) differs from the invoking owner account's key (3), an
Increment invocation by a NON-signing owner account does not fail with
IllegalOwner — the signature check runs first and the instruction fails
with MissingRequiredSignature instead, so the error is not IllegalOwner
"regardless of that account having signed". -/
theorem C4_unsigned_owner_cex :
    (⟨42, false, counterProgId, 9, ⟨77, 0⟩⟩ : CtrAccount).data.owner ≠
      (⟨3, false, 0, 5, ⟨0, 0⟩⟩ : CtrAccount).key ∧
    counter_process_instruction cpa0 mb0
        [⟨3, false, 0, 5, ⟨0, 0⟩⟩, ⟨42, false, counterProgId, 9, ⟨77, 0⟩⟩,
          ⟨0, false, 0, 1, ⟨0, 0⟩⟩]
        [1, 9] oob0 ≠ .error .IllegalOwner ∧
    counter_process_instruction cpa0 mb0
        [⟨3, false, 0, 5, ⟨0, 0⟩⟩, ⟨42, false, counterProgId, 9, ⟨77, 0⟩⟩,
          ⟨0, false, 0, 1, ⟨0, 0⟩⟩]
        [1, 9] oob0 = .error .MissingRequiredSignature :=
  ⟨by decide, by decide, by decide⟩

/-- Claim C4 (amended): for a SIGNING owner account passing the
derived-address check, invoking Increment, Decrement or Delete on a
counter record whose stored owner field differs from the invoking
account's key fails with IllegalOwner — whether or not the counter
account is program-owned, since both checks raise IllegalOwner — and,
the result being an error, no field or balance changes.  (A non-signing
account fails earlier with MissingRequiredSignature, and an account at
the wrong address fails with InvalidSeeds; see the counterexample.) -/
theorem C4_stored_owner_check :
    ∀ (cpa : List Seed → Pubkey → Option Pubkey) (mb : Nat → Nat)
      (owner counter sys : CtrAccount) (rest : List CtrAccount)
      (d : Nat) (payload : List Nat) (oob : Nat → Nat) (pda : Pubkey),
      owner.signer = true → (d = 1 ∨ d = 2 ∨ d = 3) →
      cpa [.tag COUNTER_SEED, .pk owner.key, .byte (readByte payload oob 0)]
          counterProgId = some pda →
      counter.key = pda →
      counter.data.owner ≠ owner.key →
      counter_process_instruction cpa mb (owner :: counter :: sys :: rest)
        (d :: payload) oob = .error .IllegalOwner := by
  intro cpa mb owner counter sys rest d payload oob pda hs hd hcpa hk howner
  rcases hd with rfl | rfl | rfl <;>
    (by_cases ho : counter.ownerProg = counterProgId <;>
      simp [counter_process_instruction, CounterInstruction.tryFrom, hs, hcpa, hk,
        process_increment, process_decrement, process_delete, ho, howner])

/-- Witness for C4: a signing owner (key 3) invoking Increment on a
counter whose stored owner is 77 is rejected with IllegalOwner. -/
theorem C4_stored_owner_check_witness :
    counter_process_instruction cpa0 mb0
        [⟨3, true, 0, 5, ⟨0, 0⟩⟩, ⟨42, false, counterProgId, 9, ⟨77, 0⟩⟩,
          ⟨0, false, 0, 1, ⟨0, 0⟩⟩]
        [1, 9] oob0 = .error .IllegalOwner :=
  C4_stored_owner_check cpa0 mb0 ⟨3, true, 0, 5, ⟨0, 0⟩⟩
    ⟨42, false, counterProgId, 9, ⟨77, 0⟩⟩ ⟨0, false, 0, 1, ⟨0, 0⟩⟩ [] 1 [9] oob0 42
    rfl (Or.inl rfl) rfl rfl (by decide)

/-! ### Claim C5 — instruction decoding -/

/-- With a valid discriminator (and the owner signature present so
execution reaches decoding), the counter program never returns
InvalidInstructionData, whatever the payload length: the fixed-size
payload is read through an unchecked cast, never length-checked. -/
lemma counter_valid_disc_ne_iid
    (cpa : List Seed → Pubkey → Option Pubkey) (mb : Nat → Nat)
    (owner counter sys : CtrAccount) (rest : List CtrAccount)
    (d : Nat) (payload : List Nat) (oob : Nat → Nat)
    (hs : owner.signer = true) (hd : d ≤ 3) :
    counter_process_instruction cpa mb (owner :: counter :: sys :: rest)
      (d :: payload) oob ≠ .error .InvalidInstructionData := by
  intro h
  interval_cases d
  all_goals
    simp only [counter_process_instruction, CounterInstruction.tryFrom, hs] at h
  all_goals
    repeat' (first | split at h | dsimp only at h | simp only [reduceIte] at h)
  all_goals
    first
      | exact process_create_no_error h
      | exact absurd (process_increment_error_cases h) (by simp)
      | exact absurd (process_decrement_error_cases h) (by simp)
      | exact absurd (process_delete_error_cases h) (by simp)
      | simp_all

/-- process_initialize never returns InvalidInstructionData: the length
of its fixed-size payload is never checked. -/
lemma process_initialize_ne_iid (cpa : List Seed → Pubkey → Option Pubkey)
    (mb : Nat → Nat) (accounts : List EscAccount) (y : List Nat) (oob : Nat → Nat) :
    process_initialize cpa mb accounts y oob ≠ .error .InvalidInstructionData := by
  intro h
  rcases process_initialize_error_cases _ _ _ _ _ _ h with h1 | h1 | h1 | h1 | h1 <;> simp_all

/-- process_exchange never returns InvalidInstructionData. -/
lemma process_exchange_ne_iid (cpa : List Seed → Pubkey → Option Pubkey)
    (accounts : List EscAccount) (y : List Nat) (oob : Nat → Nat) :
    process_exchange cpa accounts y oob ≠ .error .InvalidInstructionData := by
  intro h
  rcases process_exchange_error_cases _ _ _ _ _ h with h1 | h1 | h1 | h1 | h1 <;> simp_all

/-- process_cancel never returns InvalidInstructionData. -/
lemma process_cancel_ne_iid (cpa : List Seed → Pubkey → Option Pubkey)
    (accounts : List EscAccount) (y : List Nat) (oob : Nat → Nat) :
    process_cancel cpa accounts y oob ≠ .error .InvalidInstructionData := by
  intro h
  rcases process_cancel_error_cases _ _ _ _ _ h with h1 | h1 | h1 | h1 | h1 <;> simp_all

/-- Claim C5 (amended): decoding fails with InvalidInstructionData iff
the instruction byte sequence is empty or its first byte is not a valid
discriminator (counter: 0-3, escrow: 0-2) — the length of the remaining
payload is never checked: a payload of the wrong length is accepted and
read through an unchecked fixed-size cast (past its end when too
short).  For the counter program the statement assumes the owner signed
and enough accounts were supplied, since those checks run before
decoding. -/
theorem C5_decode_no_length_check :
    (∀ (cpa : List Seed → Pubkey → Option Pubkey) (mb : Nat → Nat)
        (owner counter sys : CtrAccount) (rest : List CtrAccount)
        (instruction_data : List Nat) (oob : Nat → Nat),
        owner.signer = true →
        (counter_process_instruction cpa mb (owner :: counter :: sys :: rest)
            instruction_data oob = .error .InvalidInstructionData ↔
          instruction_data = [] ∨
            ∃ d p, instruction_data = d :: p ∧ 3 < d)) ∧
    (∀ (cpa : List Seed → Pubkey → Option Pubkey) (mb : Nat → Nat)
        (accounts : List EscAccount) (instruction_data : List Nat) (oob : Nat → Nat),
        escrow_process_instruction cpa mb accounts instruction_data oob =
            .error .InvalidInstructionData ↔
          instruction_data = [] ∨
            ∃ d p, instruction_data = d :: p ∧ 2 < d) := by
  constructor
  · intro cpa mb owner counter sys rest instruction_data oob hs
    constructor
    · intro h
      cases instruction_data with
      | nil => exact Or.inl rfl
      | cons d p =>
        by_cases hd : 3 < d
        · exact Or.inr ⟨d, p, rfl, hd⟩
        · exact absurd h
            (counter_valid_disc_ne_iid cpa mb owner counter sys rest d p oob hs
              (by omega))
    · intro h
      rcases h with h | ⟨d, p, rfl, hd⟩
      · subst h
        simp [counter_process_instruction, hs]
      · have h0 : d ≠ 0 := by omega
        have h1 : d ≠ 1 := by omega
        have h2 : d ≠ 2 := by omega
        have h3 : d ≠ 3 := by omega
        simp [counter_process_instruction, CounterInstruction.tryFrom, hs, h0, h1, h2, h3]
  · intro cpa mb accounts instruction_data oob
    constructor
    · intro h
      cases instruction_data with
      | nil => exact Or.inl rfl
      | cons d p =>
        by_cases hd : 2 < d
        · exact Or.inr ⟨d, p, rfl, hd⟩
        · exfalso
          have hd2 : d ≤ 2 := by omega
          interval_cases d
          · exact process_initialize_ne_iid cpa mb accounts p oob h
          · exact process_exchange_ne_iid cpa accounts p oob h
          · exact process_cancel_ne_iid cpa accounts p oob h
    · intro h
      rcases h with h | ⟨d, p, rfl, hd⟩
      · subst h
        simp [escrow_process_instruction]
      · have h0 : d ≠ 0 := by omega
        have h1 : d ≠ 1 := by omega
        have h2 : d ≠ 2 := by omega
        simp [escrow_process_instruction, h0, h1, h2]

/-- Witness for C5: a valid counter Increment with a correct one-byte
payload decodes (failing later or succeeding, here succeeding), while
an out-of-range discriminator is rejected with InvalidInstructionData
by both programs. -/
theorem C5_decode_no_length_check_witness :
    counter_process_instruction cpa0 mb0
        [⟨3, true, 0, 5, ⟨0, 0⟩⟩, ⟨42, false, counterProgId, 9, ⟨3, 4⟩⟩,
          ⟨0, false, 0, 1, ⟨0, 0⟩⟩]
        [7, 9] oob0 = .error .InvalidInstructionData ∧
    escrow_process_instruction cpa0 mb0 [] [7, 9] oob0 = .error .InvalidInstructionData :=
  ⟨(C5_decode_no_length_check.1 cpa0 mb0 ⟨3, true, 0, 5, ⟨0, 0⟩⟩
        ⟨42, false, counterProgId, 9, ⟨3, 4⟩⟩ ⟨0, false, 0, 1, ⟨0, 0⟩⟩ [] [7, 9] oob0
        rfl).2 (Or.inr ⟨7, [9], rfl, by decide⟩),
    (C5_decode_no_length_check.2 cpa0 mb0 [] [7, 9] oob0).2
      (Or.inr ⟨7, [9], rfl, by decide⟩)⟩

/-- Counterexample to C5 as stated: an Increment instruction whose
payload is empty — the wrong length for the expected one-byte
fixed-size payload — does not fail with InvalidInstructionData; the
bump byte is read past the end of the payload (the oracle supplies 0
here) and the instruction runs to completion. -/
theorem C5_wrong_length_accepted_cex :
    counter_process_instruction cpa0 mb0
        [⟨3, true, 0, 5, ⟨0, 0⟩⟩, ⟨42, false, counterProgId, 9, ⟨3, 4⟩⟩,
          ⟨0, false, 0, 1, ⟨0, 0⟩⟩]
        [1] oob0 =
      .ok (⟨3, true, 0, 5, ⟨0, 0⟩⟩, ⟨42, false, counterProgId, 9, ⟨3, 5⟩⟩) ∧
    escrow_process_instruction cpa0 mb0
        [⟨10, true, 0, 100, false, ⟨0, 0⟩, ⟨0, 0, 0⟩⟩,
          ⟨11, false, 6, 2, true, ⟨10, 30⟩, ⟨0, 0, 0⟩⟩,
          ⟨20, false, 0, 50, false, ⟨0, 0⟩, ⟨0, 0, 0⟩⟩,
          ⟨42, false, 0, 0, false, ⟨0, 0⟩, ⟨0, 0, 0⟩⟩,
          ⟨31, false, 6, 2, true, ⟨42, 0⟩, ⟨0, 0, 0⟩⟩,
          ⟨5, false, 0, 1, false, ⟨0, 0⟩, ⟨0, 0, 0⟩⟩,
          ⟨6, false, 0, 1, false, ⟨0, 0⟩, ⟨0, 0, 0⟩⟩]
        [0] oob0 =
      .ok [⟨10, true, 0, 93, false, ⟨0, 0⟩, ⟨0, 0, 0⟩⟩,
        ⟨11, false, 6, 2, true, ⟨10, 30⟩, ⟨0, 0, 0⟩⟩,
        ⟨20, false, 0, 50, false, ⟨0, 0⟩, ⟨0, 0, 0⟩⟩,
        ⟨42, false, escrowProgId, 7, false, ⟨0, 0⟩, ⟨10, 20, 0⟩⟩,
        ⟨31, false, 6, 2, true, ⟨42, 0⟩, ⟨0, 0, 0⟩⟩,
        ⟨5, false, 0, 1, false, ⟨0, 0⟩, ⟨0, 0, 0⟩⟩,
        ⟨6, false, 0, 1, false, ⟨0, 0⟩, ⟨0, 0, 0⟩⟩] :=
  ⟨by decide, by decide⟩

/-! ### Claim C6 — count saturation at the u64 bounds -/

/-- Claim C6: on a counter record passing Increment's checks whose
count is u64::MAX, Increment succeeds and leaves the count at u64::MAX;
on one whose count is 0, Decrement succeeds and leaves the count at 0 —
neither wraps around nor errors at the bounds (saturating_add /
saturating_sub). -/
theorem C6_count_saturates :
    (∀ owner counter : CtrAccount,
      counter.ownerProg = counterProgId → counter.data.owner = owner.key →
      counter.data.count = U64MAX →
      process_increment owner counter =
        .ok (owner, { counter with data := { counter.data with count := U64MAX } })) ∧
    (∀ owner counter : CtrAccount,
      counter.ownerProg = counterProgId → counter.data.owner = owner.key →
      counter.data.count = 0 →
      process_decrement owner counter =
        .ok (owner, { counter with data := { counter.data with count := 0 } })) := by
  have hmax : satAdd U64MAX 1 = U64MAX := by decide
  constructor
  · intro owner counter h1 h2 h3
    simp [process_increment, h1, h2, h3, hmax]
  · intro owner counter h1 h2 h3
    simp [process_decrement, h1, h2, h3]

/-- Witness for C6: a concrete counter at u64::MAX stays there on
Increment, and one at 0 stays there on Decrement. -/
theorem C6_count_saturates_witness :
    process_increment ⟨3, true, 0, 5, ⟨0, 0⟩⟩ ⟨42, false, counterProgId, 9, ⟨3, U64MAX⟩⟩ =
      .ok (⟨3, true, 0, 5, ⟨0, 0⟩⟩, ⟨42, false, counterProgId, 9, ⟨3, U64MAX⟩⟩) ∧
    process_decrement ⟨3, true, 0, 5, ⟨0, 0⟩⟩ ⟨42, false, counterProgId, 9, ⟨3, 0⟩⟩ =
      .ok (⟨3, true, 0, 5, ⟨0, 0⟩⟩, ⟨42, false, counterProgId, 9, ⟨3, 0⟩⟩) :=
  ⟨C6_count_saturates.1 ⟨3, true, 0, 5, ⟨0, 0⟩⟩ ⟨42, false, counterProgId, 9, ⟨3, U64MAX⟩⟩
      rfl rfl rfl,
    C6_count_saturates.2 ⟨3, true, 0, 5, ⟨0, 0⟩⟩ ⟨42, false, counterProgId, 9, ⟨3, 0⟩⟩
      rfl rfl rfl⟩

/-! ### Claim C7 — Delete moves the counter's balance -/

/-- Counterexample to C7 as stated: with the owner's balance already at
u64::MAX and 1 lamport on the counter account, a successful Delete
leaves the owner at u64::MAX (saturating_add), so it did NOT add the
counter's entire native balance — one lamport is destroyed. -/
theorem C7_delete_overflow_cex :
    process_delete ⟨3, true, 0, U64MAX, ⟨0, 0⟩⟩ ⟨42, false, counterProgId, 1, ⟨3, 0⟩⟩ =
      .ok (⟨3, true, 0, U64MAX, ⟨0, 0⟩⟩, ⟨42, false, counterProgId, 0, ⟨3, 0⟩⟩) ∧
    U64MAX ≠ U64MAX + 1 :=
  ⟨by decide, by decide⟩

/-- Claim C7 (amended): a Delete passing its precondition checks
succeeds, adds the counter account's entire native balance to the
owner's balance provided the sum does not exceed u64::MAX (the addition
saturates at u64::MAX otherwise, see C10), sets the counter account's
balance to 0, and leaves the counter account's data bytes unchanged. -/
theorem C7_delete_moves_balance :
    ∀ owner counter : CtrAccount,
      counter.ownerProg = counterProgId → counter.data.owner = owner.key →
      owner.lamports + counter.lamports ≤ U64MAX →
      process_delete owner counter =
        .ok ({ owner with lamports := owner.lamports + counter.lamports },
          { counter with lamports := 0 }) := by
  intro owner counter h1 h2 h3
  simp [process_delete, h1, h2, satAdd, Nat.min_eq_left h3]

/-- Witness for C7: deleting a counter holding 9 lamports moves them
onto the owner's 100 and zeroes the counter, data untouched. -/
theorem C7_delete_moves_balance_witness :
    process_delete ⟨3, true, 0, 100, ⟨0, 0⟩⟩ ⟨42, false, counterProgId, 9, ⟨3, 4⟩⟩ =
      .ok (⟨3, true, 0, 109, ⟨0, 0⟩⟩, ⟨42, false, counterProgId, 0, ⟨3, 4⟩⟩) :=
  C7_delete_moves_balance ⟨3, true, 0, 100, ⟨0, 0⟩⟩ ⟨42, false, counterProgId, 9, ⟨3, 4⟩⟩
    rfl rfl (by decide)

/-! ### Claim C10 — Delete saturates the owner's balance -/

/-- Claim C10: when the sum of the owner's and the counter's native
balances exceeds u64::MAX, a successful Delete saturates the owner's
balance at u64::MAX while still zeroing the counter's balance — the
excess lamports are silently destroyed, with no error returned. -/
theorem C10_delete_saturating_add :
    ∀ owner counter : CtrAccount,
      counter.ownerProg = counterProgId → counter.data.owner = owner.key →
      U64MAX < owner.lamports + counter.lamports →
      process_delete owner counter =
        .ok ({ owner with lamports := U64MAX }, { counter with lamports := 0 }) := by
  intro owner counter h1 h2 h3
  simp [process_delete, h1, h2, satAdd, Nat.min_eq_right (Nat.le_of_lt h3)]

/-- Witness for C10: owner at u64::MAX, counter holding 5 lamports —
Delete succeeds, the owner stays at u64::MAX and the 5 lamports are
destroyed. -/
theorem C10_delete_saturating_add_witness :
    process_delete ⟨3, true, 0, U64MAX, ⟨0, 0⟩⟩ ⟨42, false, counterProgId, 5, ⟨3, 2⟩⟩ =
      .ok (⟨3, true, 0, U64MAX, ⟨0, 0⟩⟩, ⟨42, false, counterProgId, 0, ⟨3, 2⟩⟩) :=
  C10_delete_saturating_add ⟨3, true, 0, U64MAX, ⟨0, 0⟩⟩ ⟨42, false, counterProgId, 5, ⟨3, 2⟩⟩
    rfl rfl (by decide)

/-! ### Claim C8 — the stored owner field is write-once -/

/-- Claim C8: Increment, Decrement and Delete never modify the counter
record's stored owner field (nor the account's key or owning program):
whenever one of them succeeds, the resulting counter account carries
the same owner field it started with — only the count or the balances
change; and an error leaves no effect at all, the instruction aborting
atomically. -/
theorem C8_owner_field_immutable :
    ∀ (cpa : List Seed → Pubkey → Option Pubkey) (mb : Nat → Nat)
      (owner counter sys : CtrAccount) (rest : List CtrAccount)
      (d : Nat) (payload : List Nat) (oob : Nat → Nat)
      (owner' counter' : CtrAccount),
      (d = 1 ∨ d = 2 ∨ d = 3) →
      counter_process_instruction cpa mb (owner :: counter :: sys :: rest)
        (d :: payload) oob = .ok (owner', counter') →
      counter'.data.owner = counter.data.owner ∧ counter'.key = counter.key ∧
        counter'.ownerProg = counter.ownerProg := by
  intro cpa mb owner counter sys rest d payload oob owner' counter' hd h
  rcases hd with rfl | rfl | rfl <;>
    (simp only [counter_process_instruction, CounterInstruction.tryFrom, reduceIte,
        process_increment, process_decrement, process_delete] at h
     repeat' (first | split at h | dsimp only at h)
     all_goals
       first
         | (exfalso
            simp_all
            done)
         | (injection h with hh
            injection hh with hh1 hh2
            subst hh2
            simp))

/-- Witness for C8: a successful concrete Increment keeps the stored
owner field (3), the account key (42) and the owning program. -/
theorem C8_owner_field_immutable_witness :
    (⟨42, false, counterProgId, 9, ⟨3, 6⟩⟩ : CtrAccount).data.owner =
        (⟨42, false, counterProgId, 9, ⟨3, 5⟩⟩ : CtrAccount).data.owner ∧
      (⟨42, false, counterProgId, 9, ⟨3, 6⟩⟩ : CtrAccount).key =
        (⟨42, false, counterProgId, 9, ⟨3, 5⟩⟩ : CtrAccount).key ∧
      (⟨42, false, counterProgId, 9, ⟨3, 6⟩⟩ : CtrAccount).ownerProg =
        (⟨42, false, counterProgId, 9, ⟨3, 5⟩⟩ : CtrAccount).ownerProg :=
  C8_owner_field_immutable cpa0 mb0 ⟨3, true, 0, 100, ⟨3, 7⟩⟩
    ⟨42, false, counterProgId, 9, ⟨3, 5⟩⟩ ⟨0, false, 0, 1, ⟨0, 0⟩⟩ [] 1 [9] oob0
    ⟨3, true, 0, 100, ⟨3, 7⟩⟩ ⟨42, false, counterProgId, 9, ⟨3, 6⟩⟩
    (Or.inl rfl) (by decide)

/-! ### Claim C9 — token-account ownership checks come first -/

/-- Claim C9: each escrow handler fails with IllegalOwner — before the
derived-address check (the result holds for every cpa oracle) and
before any transfer — unless the escrow token account's recorded owner
is the escrow record account's address and the sender (Initialize,
Cancel) or receiver (Exchange) token account's recorded owner is the
sender/receiver address.  Stated for well-formed token accounts, whose
validation by the external token library succeeds. -/
theorem C9_token_ata_ownership_checked :
    (∀ (cpa : List Seed → Pubkey → Option Pubkey) (mb : Nat → Nat)
        (sender sender_ata receiver escrow escrow_ata sys tokp : EscAccount)
        (instruction_data : List Nat) (oob : Nat → Nat),
        sender_ata.tokValid = true → escrow_ata.tokValid = true →
        (sender_ata.tok.owner ≠ sender.key ∨ escrow_ata.tok.owner ≠ escrow.key) →
        process_initialize cpa mb
          [sender, sender_ata, receiver, escrow, escrow_ata, sys, tokp]
          instruction_data oob = .error .IllegalOwner) ∧
    (∀ (cpa : List Seed → Pubkey → Option Pubkey)
        (sender receiver receiver_ata escrow escrow_ata sys tokp : EscAccount)
        (instruction_data : List Nat) (oob : Nat → Nat),
        receiver_ata.tokValid = true → escrow_ata.tokValid = true →
        (receiver_ata.tok.owner ≠ receiver.key ∨ escrow_ata.tok.owner ≠ escrow.key) →
        process_exchange cpa
          [sender, receiver, receiver_ata, escrow, escrow_ata, sys, tokp]
          instruction_data oob = .error .IllegalOwner) ∧
    (∀ (cpa : List Seed → Pubkey → Option Pubkey)
        (sender sender_ata receiver escrow escrow_ata sys tokp : EscAccount)
        (instruction_data : List Nat) (oob : Nat → Nat),
        sender_ata.tokValid = true → escrow_ata.tokValid = true →
        (sender_ata.tok.owner ≠ sender.key ∨ escrow_ata.tok.owner ≠ escrow.key) →
        process_cancel cpa
          [sender, sender_ata, receiver, escrow, escrow_ata, sys, tokp]
          instruction_data oob = .error .IllegalOwner) := by
  refine ⟨?_, ?_, ?_⟩
  · intro cpa mb sender sender_ata receiver escrow escrow_ata sys tokp
      instruction_data oob h1 h2 h3
    rcases h3 with hm | hm
    · simp [ process_initialize, from_account_info, h1, h2, hm]
    · by_cases hs1 : sender_ata.tok.owner = sender.key
      · simp [ process_initialize, from_account_info, h1, h2, hs1, hm]
      · simp [ process_initialize, from_account_info, h1, h2, hs1]
  · intro cpa sender receiver receiver_ata escrow escrow_ata sys tokp
      instruction_data oob h1 h2 h3
    rcases h3 with hm | hm
    · simp [process_exchange, from_account_info, h1, h2, hm]
    · by_cases hs1 : receiver_ata.tok.owner = receiver.key
      · simp [process_exchange, from_account_info, h1, h2, hs1, hm]
      · simp [process_exchange, from_account_info, h1, h2, hs1]
  · intro cpa sender sender_ata receiver escrow escrow_ata sys tokp
      instruction_data oob h1 h2 h3
    rcases h3 with hm | hm
    · simp [process_cancel, from_account_info, h1, h2, hm]
    · by_cases hs1 : sender_ata.tok.owner = sender.key
      · simp [process_cancel, from_account_info, h1, h2, hs1, hm]
      · simp [process_cancel, from_account_info, h1, h2, hs1]

/-- Witness for C9: a sender token account recorded as owned by 99
instead of the sender (10) is rejected by Initialize and Cancel, and a
receiver token account recorded as owned by 99 instead of the receiver
(20) is rejected by Exchange, all with IllegalOwner. -/
theorem C9_token_ata_ownership_checked_witness :
    process_initialize cpa0 mb0
        [⟨10, true, 0, 100, false, ⟨0, 0⟩, ⟨0, 0, 0⟩⟩,
          ⟨11, false, 6, 2, true, ⟨99, 50⟩, ⟨0, 0, 0⟩⟩,
          ⟨20, false, 0, 50, false, ⟨0, 0⟩, ⟨0, 0, 0⟩⟩,
          ⟨42, false, 0, 0, false, ⟨0, 0⟩, ⟨0, 0, 0⟩⟩,
          ⟨31, false, 6, 2, true, ⟨42, 0⟩, ⟨0, 0, 0⟩⟩,
          ⟨5, false, 0, 1, false, ⟨0, 0⟩, ⟨0, 0, 0⟩⟩,
          ⟨6, false, 0, 1, false, ⟨0, 0⟩, ⟨0, 0, 0⟩⟩]
        [50, 0, 0, 0, 0, 0, 0, 0, 9, 0, 0, 0, 0, 0, 0, 0] oob0 = .error .IllegalOwner ∧
    process_exchange cpa0
        [⟨10, false, 0, 100, false, ⟨0, 0⟩, ⟨0, 0, 0⟩⟩,
          ⟨20, true, 0, 50, false, ⟨0, 0⟩, ⟨0, 0, 0⟩⟩,
          ⟨21, false, 6, 2, true, ⟨99, 0⟩, ⟨0, 0, 0⟩⟩,
          ⟨42, false, escrowProgId, 7, false, ⟨0, 0⟩, ⟨10, 20, 0⟩⟩,
          ⟨31, false, 6, 2, true, ⟨42, 50⟩, ⟨0, 0, 0⟩⟩,
          ⟨5, false, 0, 1, false, ⟨0, 0⟩, ⟨0, 0, 0⟩⟩,
          ⟨6, false, 0, 1, false, ⟨0, 0⟩, ⟨0, 0, 0⟩⟩]
        [9] oob0 = .error .IllegalOwner ∧
    process_cancel cpa0
        [⟨10, true, 0, 100, false, ⟨0, 0⟩, ⟨0, 0, 0⟩⟩,
          ⟨11, false, 6, 2, true, ⟨99, 0⟩, ⟨0, 0, 0⟩⟩,
          ⟨20, false, 0, 50, false, ⟨0, 0⟩, ⟨0, 0, 0⟩⟩,
          ⟨42, false, escrowProgId, 7, false, ⟨0, 0⟩, ⟨10, 20, 0⟩⟩,
          ⟨31, false, 6, 2, true, ⟨42, 50⟩, ⟨0, 0, 0⟩⟩,
          ⟨5, false, 0, 1, false, ⟨0, 0⟩, ⟨0, 0, 0⟩⟩,
          ⟨6, false, 0, 1, false, ⟨0, 0⟩, ⟨0, 0, 0⟩⟩]
        [9] oob0 = .error .IllegalOwner :=
  ⟨C9_token_ata_ownership_checked.1 cpa0 mb0 ⟨10, true, 0, 100, false, ⟨0, 0⟩, ⟨0, 0, 0⟩⟩
      ⟨11, false, 6, 2, true, ⟨99, 50⟩, ⟨0, 0, 0⟩⟩ ⟨20, false, 0, 50, false, ⟨0, 0⟩, ⟨0, 0, 0⟩⟩
      ⟨42, false, 0, 0, false, ⟨0, 0⟩, ⟨0, 0, 0⟩⟩ ⟨31, false, 6, 2, true, ⟨42, 0⟩, ⟨0, 0, 0⟩⟩
      ⟨5, false, 0, 1, false, ⟨0, 0⟩, ⟨0, 0, 0⟩⟩ ⟨6, false, 0, 1, false, ⟨0, 0⟩, ⟨0, 0, 0⟩⟩
      [50, 0, 0, 0, 0, 0, 0, 0, 9, 0, 0, 0, 0, 0, 0, 0] oob0 rfl rfl
      (Or.inl (by decide)),
    C9_token_ata_ownership_checked.2.1 cpa0 ⟨10, false, 0, 100, false, ⟨0, 0⟩, ⟨0, 0, 0⟩⟩
      ⟨20, true, 0, 50, false, ⟨0, 0⟩, ⟨0, 0, 0⟩⟩ ⟨21, false, 6, 2, true, ⟨99, 0⟩, ⟨0, 0, 0⟩⟩
      ⟨42, false, escrowProgId, 7, false, ⟨0, 0⟩, ⟨10, 20, 0⟩⟩
      ⟨31, false, 6, 2, true, ⟨42, 50⟩, ⟨0, 0, 0⟩⟩
      ⟨5, false, 0, 1, false, ⟨0, 0⟩, ⟨0, 0, 0⟩⟩ ⟨6, false, 0, 1, false, ⟨0, 0⟩, ⟨0, 0, 0⟩⟩
      [9] oob0 rfl rfl (Or.inl (by decide)),
    C9_token_ata_ownership_checked.2.2 cpa0 ⟨10, true, 0, 100, false, ⟨0, 0⟩, ⟨0, 0, 0⟩⟩
      ⟨11, false, 6, 2, true, ⟨99, 0⟩, ⟨0, 0, 0⟩⟩ ⟨20, false, 0, 50, false, ⟨0, 0⟩, ⟨0, 0, 0⟩⟩
      ⟨42, false, escrowProgId, 7, false, ⟨0, 0⟩, ⟨10, 20, 0⟩⟩
      ⟨31, false, 6, 2, true, ⟨42, 50⟩, ⟨0, 0, 0⟩⟩
      ⟨5, false, 0, 1, false, ⟨0, 0⟩, ⟨0, 0, 0⟩⟩ ⟨6, false, 0, 1, false, ⟨0, 0⟩, ⟨0, 0, 0⟩⟩
      [9] oob0 rfl rfl (Or.inl (by decide))⟩
